import Mathlib

/-!
Verification of the APNS pusher (pusher/apns.go) and the extensions-package
fan-out helpers against the repository specification.

The Go code is shallowly embedded: the viper configuration is an association
list with defaults, external constructors (Kafka consumer, message handler,
reporter setup) are environment-provided `Except` outcomes, and the
side-effecting bodies of `Start` and `reportGoStats` are rendered as explicit
event traces.  Go integers are modelled by `Nat`; `m.NumGC` is a `uint32`,
but since `256` divides `2 ^ 32` the index `(NumGC+255)%256` computed in
wrapping `uint32` arithmetic coincides with the value computed in `Nat`.
-/

/-- Viper-style configuration: values loaded from the config file plus
defaults registered with SetDefault.  GetInt returns the file value when
present, else the registered default, else the zero value. -/
structure ViperConfig where
  fileValues : List (String × Nat)
  defaults : List (String × Nat)
deriving Repr

def lookupKV : List (String × Nat) → String → Option Nat
  | [], _ => none
  | (k, v) :: rest, key => if k = key then some v else lookupKV rest key

def ViperConfig.setDefault (c : ViperConfig) (key : String) (v : Nat) : ViperConfig :=
  { c with defaults := (key, v) :: c.defaults }

def ViperConfig.getInt (c : ViperConfig) (key : String) : Nat :=
  match lookupKV c.fileValues key with
  | some v => v
  | none => (lookupKV c.defaults key).getD 0

/-- loadConfigurationDefaults (apns.go line 88): registers the default
gracefulShutdownTimeout of 10 (seconds). -/
def loadConfigurationDefaults (c : ViperConfig) : ViperConfig :=
  c.setDefault "gracefulShutdownTimeout" 10

/-- The APNS message handler, recording the push queue it was wired with
(the `queue` argument of NewAPNSMessageHandler, apns.go line 118). -/
structure MessageHandler where
  pushQueue : Option Nat
deriving Repr, DecidableEq

/-- APNSPusher (apns.go lines 41-56).  The fields relevant to the claims;
reporters, handlers and the Kafka consumer are identified abstractly, the
run flag and wait group live in the trace semantics of Start. -/
structure APNSPusher where
  appName : String
  certificatePath : String
  configFile : String
  isProduction : Bool
  gracefulShutdownTimeout : Nat
  statsReporters : List String
  feedbackReporters : List String
  invalidTokenHandlers : List String
  queue : Nat
  messageHandler : MessageHandler
deriving Repr

/-- Environment of external collaborators consumed by configure
(apns.go lines 92-125): the config file contents, the outcome of building
each reporter set from configuration, of NewKafkaConsumer, and of
NewAPNSMessageHandler (which, on success, holds the queue it was given). -/
structure ConfigureEnv where
  fileValues : List (String × Nat)
  statsFromConfig : Except String (List String)
  feedbackFromConfig : Except String (List String)
  invalidTokenFromConfig : Except String (List String)
  kafkaConsumer : Except String Nat
  handlerResult : Option String
deriving Repr

/-- configureStatsReporters (apns.go lines 136-147): a non-nil statsReporters
argument is used as-is, otherwise the reporters are built from configuration
(which may fail). -/
def configureStatsReporters (env : ConfigureEnv) (statsReporters : Option (List String)) :
    Except String (List String) :=
  match statsReporters with
  | some rs => Except.ok rs
  | none => env.statsFromConfig

/-- NewAPNSMessageHandler (called at apns.go line 110): fails with the
environment error, or succeeds holding the push queue it was passed. -/
def newAPNSMessageHandler (env : ConfigureEnv) (pushQueue : Option Nat) :
    Except String MessageHandler :=
  match env.handlerResult with
  | some e => Except.error e
  | none => Except.ok { pushQueue := pushQueue }

/-- configure (apns.go lines 92-125): loads config with defaults, reads the
graceful-shutdown timeout, then runs the fallible steps in order —
stats reporters, feedback reporters, invalid-token handlers, Kafka consumer,
message handler — short-circuiting on the first error. -/
def configure (env : ConfigureEnv) (configFile certificatePath appName : String)
    (isProduction : Bool) (queue : Option Nat) (statsReporters : Option (List String)) :
    Except String APNSPusher := do
  let cfg := loadConfigurationDefaults { fileValues := env.fileValues, defaults := [] }
  let gst := cfg.getInt "gracefulShutdownTimeout"
  let stats ← configureStatsReporters env statsReporters
  let feedback ← env.feedbackFromConfig
  let invalid ← env.invalidTokenFromConfig
  let q ← env.kafkaConsumer
  let handler ← newAPNSMessageHandler env queue
  return { appName := appName, certificatePath := certificatePath,
           configFile := configFile, isProduction := isProduction,
           gracefulShutdownTimeout := gst, statsReporters := stats,
           feedbackReporters := feedback, invalidTokenHandlers := invalid,
           queue := q, messageHandler := handler }

/-- NewAPNSPusher (apns.go lines 59-86): takes the first element of the
variadic queue argument when present, delegates to configure, and returns
the pusher only when configure succeeded. -/
def NewAPNSPusher (env : ConfigureEnv) (configFile certificatePath appName : String)
    (isProduction : Bool) (statsReporters : Option (List String))
    (queueOrNil : List Nat) : Except String APNSPusher :=
  configure env configFile certificatePath appName isProduction
    queueOrNil.head? statsReporters

/-- OS signals handled by Start (apns.go line 172). -/
inductive Sig where
  | interrupt
  | sigint
  | sigterm
deriving Repr, DecidableEq

/-- Observable events of the body of Start (apns.go lines 159-183). -/
inductive Event where
  | setRun (b : Bool)
  | spawnHandleMessages
  | spawnHandleResponses
  | spawnConsumeLoop
  | spawnReportGoStats
  | caughtSignal (s : Sig)
  | stopConsuming
  | gracefulShutdown (timeoutSeconds : Nat)
deriving Repr, DecidableEq

/-- The main loop of Start (apns.go lines 174-180): while the run flag is
true, block on the signal channel; on a signal, log and set run to false.
Returns the events emitted and whether the loop terminated (with no pending
signal the select blocks forever, so the loop never exits). -/
def mainLoop : Bool → List Sig → List Event × Bool
  | false, _ => ([], true)
  | true, [] => ([], false)
  | true, s :: rest =>
    let (es, b) := mainLoop false rest
    (Event.caughtSignal s :: Event.setRun false :: es, b)

/-- Start (apns.go lines 159-183) as an event trace: set run true, spawn the
four loops, run the main signal loop, and — only if that loop exits — stop
consuming and enter the bounded graceful-shutdown drain.  The flag
`consumeLoopErrExits` models whether the spawned consume loop exited with an
unrecoverable broker error; the body of Start contains no construct that
observes it, so it is (faithfully) unused. -/
def APNSPusher.Start (a : APNSPusher) (sigs : List Sig)
    (consumeLoopErrExits : Bool) : List Event × Bool :=
  let _ := consumeLoopErrExits
  let spawns := [Event.setRun true, Event.spawnHandleMessages,
                 Event.spawnHandleResponses, Event.spawnConsumeLoop,
                 Event.spawnReportGoStats]
  match mainLoop true sigs with
  | (es, true) =>
      (spawns ++ es ++ [Event.stopConsuming,
        Event.gracefulShutdown a.gracefulShutdownTimeout], true)
  | (es, false) => (spawns ++ es, false)

/-- Go runtime.MemStats, restricted to the fields read by reportGoStats
(apns.go lines 188-196).  PauseNs is the 256-entry circular buffer of recent
GC pause durations. -/
structure MemStats where
  alloc : Nat
  heapObjects : Nat
  nextGC : Nat
  numGC : Nat
  pauseNs : Fin 256 → Nat

/-- The runtime sample passed to StatsReporter.ReportGoStats
(apns.go lines 192-196): exactly five fields. -/
structure GoStatsSample where
  goroutines : Nat
  alloc : Nat
  heapObjects : Nat
  nextGC : Nat
  lastPauseNs : Nat
deriving Repr, DecidableEq

/-- Observable events of one iteration of reportGoStats. -/
inductive StatsEvent where
  | report (reporter : String) (sample : GoStatsSample)
  | sleep (seconds : Nat)
deriving Repr, DecidableEq

/-- The loop head of reportGoStats (apns.go line 186) is a bare `for`:
its continuation condition is constantly true, whatever the iteration. -/
def reportGoStatsLoopCondition (_iteration : Nat) : Bool :=
  true

/-- One iteration of the body of reportGoStats (apns.go lines 186-199):
read the goroutine count and memory stats, take the last GC pause from the
circular buffer at index (NumGC+255)%256, report the five-field sample to
every stats reporter in order, then sleep 30 seconds. -/
def reportGoStatsBody (numGoroutine : Nat) (m : MemStats) (reporters : List String) :
    List StatsEvent :=
  let gcTime := m.pauseNs ⟨(m.numGC + 255) % 256, Nat.mod_lt _ (by decide)⟩
  (reporters.map fun r =>
    StatsEvent.report r
      { goroutines := numGoroutine, alloc := m.alloc,
        heapObjects := m.heapObjects, nextGC := m.nextGC,
        lastPauseNs := gcTime })
    ++ [StatsEvent.sleep 30]

/-- The trace of iteration n of reportGoStats, where obs gives the runtime
observation (goroutine count, memory stats) made at each iteration. -/
def reportGoStatsTrace (obs : Nat → Nat × MemStats) (reporters : List String)
    (n : Nat) : List StatsEvent :=
  reportGoStatsBody (obs n).1 (obs n).2 reporters

/-- Modelled from the spec: the function handleInvalidToken of the
extensions package is absent from src/ (only its test file is present).
Per the spec, it iterates over all configured invalid-token handlers,
invoking each handler's delete operation with the token; any handler error
is logged and swallowed — it stops no subsequent handler and never surfaces
to the caller (the function returns nothing).  The model returns the unit
result seen by the caller together with the per-handler outcomes (the log). -/
def handleInvalidToken (handlers : List (String → Except String Unit))
    (token : String) : Unit × List (Except String Unit) :=
  ((), handlers.map fun h => h token)

/-- Modelled from the spec: the function sendToFeedbackReporters of the
extensions package is absent from src/ (only its test file is present).
Per the spec, it first serializes the outcome payload to the canonical
interchange representation; if serialization fails the whole call aborts
with that error and delivers to zero sinks, otherwise the serialized bytes
are delivered to every feedback reporter and the call succeeds.  The model
returns the caller-visible result together with the list of deliveries made
(reporter, bytes). -/
def sendToFeedbackReporters {α : Type} (serialize : α → Except String String)
    (reporters : List String) (payload : α) :
    Except String Unit × List (String × String) :=
  match serialize payload with
  | Except.error e => (Except.error e, [])
  | Except.ok bytes => (Except.ok (), reporters.map fun r => (r, bytes))

/-- True exactly when an Except value is a success. -/
def exceptIsOk {ε α : Type} : Except ε α → Bool
  | Except.ok _ => true
  | Except.error _ => false

/-- Discriminates report events from sleeps in a stats-loop trace. -/
def StatsEvent.isReport : StatsEvent → Bool
  | StatsEvent.report _ _ => true
  | StatsEvent.sleep _ => false

/-- Concrete memory stats used to instantiate theorems at closed inputs. -/
def sampleMemStats : MemStats :=
  { alloc := 100, heapObjects := 7, nextGC := 200, numGC := 3,
    pauseNs := fun i => i.val }

/-- Concrete per-iteration runtime observation stream. -/
def sampleObs : Nat → Nat × MemStats :=
  fun _ => (5, sampleMemStats)

/-- A concrete pusher instance used to instantiate theorems at closed inputs. -/
def samplePusher : APNSPusher :=
  { appName := "game", certificatePath := "cert.pem", configFile := "config.yaml",
    isProduction := false, gracefulShutdownTimeout := 10,
    statsReporters := ["statsd"], feedbackReporters := ["kafka"],
    invalidTokenHandlers := ["tokenPG"], queue := 1,
    messageHandler := { pushQueue := none } }

/-- A concrete configuration environment in which every external
construction step succeeds and the config file sets no keys. -/
def sampleEnv : ConfigureEnv :=
  { fileValues := [], statsFromConfig := Except.ok ["statsd"],
    feedbackFromConfig := Except.ok ["kafka"],
    invalidTokenFromConfig := Except.ok ["tokenPG"],
    kafkaConsumer := Except.ok 1, handlerResult := none }

lemma start_nil (a : APNSPusher) (c : Bool) :
    a.Start [] c =
      ([Event.setRun true, Event.spawnHandleMessages, Event.spawnHandleResponses,
        Event.spawnConsumeLoop, Event.spawnReportGoStats], false) := by
  simp [APNSPusher.Start, mainLoop]

lemma start_cons (a : APNSPusher) (s : Sig) (rest : List Sig) (c : Bool) :
    a.Start (s :: rest) c =
      ([Event.setRun true, Event.spawnHandleMessages, Event.spawnHandleResponses,
        Event.spawnConsumeLoop, Event.spawnReportGoStats,
        Event.caughtSignal s, Event.setRun false, Event.stopConsuming,
        Event.gracefulShutdown a.gracefulShutdownTimeout], true) := by
  simp [APNSPusher.Start, mainLoop]

/-- C1: in every completed run of Start, the run flag is set false (exiting
the main loop), then StopConsuming is invoked exactly once, and only after
that does the bounded graceful-shutdown drain wait begin. -/
theorem start_stops_intake_before_drain (a : APNSPusher) (sigs : List Sig)
    (c : Bool) (tr : List Event) (h : a.Start sigs c = (tr, true)) :
    tr.count Event.stopConsuming = 1 ∧
    ∃ i j k, i < j ∧ j < k ∧
      tr.get? i = some (Event.setRun false) ∧
      tr.get? j = some Event.stopConsuming ∧
      tr.get? k = some (Event.gracefulShutdown a.gracefulShutdownTimeout) := by
  cases sigs with
  | nil => rw [start_nil] at h; simp at h
  | cons s rest =>
    rw [start_cons] at h
    injection h with h1 h2
    subst h1
    refine ⟨?_, 6, 7, 8, by omega, by omega, rfl, rfl, rfl⟩
    simp [List.count_cons]

/-- Closed instance of C1 at a concrete pusher and signal list. -/
theorem start_stops_intake_before_drain_witness :
    (samplePusher.Start [Sig.sigterm] false).1.count Event.stopConsuming = 1 ∧
    ∃ i j k, i < j ∧ j < k ∧
      (samplePusher.Start [Sig.sigterm] false).1.get? i = some (Event.setRun false) ∧
      (samplePusher.Start [Sig.sigterm] false).1.get? j = some Event.stopConsuming ∧
      (samplePusher.Start [Sig.sigterm] false).1.get? k =
        some (Event.gracefulShutdown samplePusher.gracefulShutdownTimeout) :=
  start_stops_intake_before_drain samplePusher [Sig.sigterm] false _ rfl

/-- C2 counterexample: with the consume loop having exited on an
unrecoverable broker error and no OS signal delivered, Start neither
terminates nor ever invokes StopConsuming — the consume-loop exit is NOT
treated like a shutdown signal; the pusher hangs silently. -/
theorem consume_exit_ignored_counterexample :
    (samplePusher.Start [] true).2 = false ∧
    Event.stopConsuming ∉ (samplePusher.Start [] true).1 := by
  decide

/-- C2 amended: the body of Start never observes the consume loop; its
trace is independent of whether the consume loop exited with an error, it
terminates exactly when at least one OS signal arrives, and with no signal
intake is never stopped (even if the consume loop has died). -/
theorem consume_exit_unobserved (a : APNSPusher) (sigs : List Sig)
    (c c' : Bool) :
    a.Start sigs c = a.Start sigs c' ∧
    ((a.Start sigs c).2 = true ↔ sigs ≠ []) ∧
    (sigs = [] → Event.stopConsuming ∉ (a.Start sigs c).1) := by
  refine ⟨rfl, ?_, ?_⟩ <;>
    cases sigs <;> simp [start_nil, start_cons]

/-- Closed instance of C2's amended theorem. -/
theorem consume_exit_unobserved_witness :
    samplePusher.Start [] true = samplePusher.Start [] false ∧
    Event.stopConsuming ∉ (samplePusher.Start [] true).1 :=
  ⟨(consume_exit_unobserved samplePusher [] true false).1,
   (consume_exit_unobserved samplePusher [] true false).2.2 rfl⟩

/-- C9: every run of Start spawns exactly one message-handling loop, one
response loop, one consume loop and one stats loop, whatever signals arrive
and whatever the consume loop does. -/
theorem start_spawns_each_loop_once (a : APNSPusher) (sigs : List Sig)
    (c : Bool) :
    (a.Start sigs c).1.count Event.spawnHandleMessages = 1 ∧
    (a.Start sigs c).1.count Event.spawnHandleResponses = 1 ∧
    (a.Start sigs c).1.count Event.spawnConsumeLoop = 1 ∧
    (a.Start sigs c).1.count Event.spawnReportGoStats = 1 := by
  cases sigs <;> simp [start_nil, start_cons, List.count_cons]

/-- C3: when one invalid-token sink in a set of M fails, every sink — the
failing one included — still receives the event (its recorded outcome is
exactly its own invocation on the token), and no failure reaches the
caller, who gets the unit result. -/
theorem fanout_sink_failure_isolated
    (handlers : List (String → Except String Unit)) (token : String)
    (i : Nat) (hFail : String → Except String Unit) (e : String)
    (hi : handlers[i]? = some hFail) (he : hFail token = Except.error e) :
    (handleInvalidToken handlers token).2.length = handlers.length ∧
    (∀ (j : Nat) (h : String → Except String Unit), handlers[j]? = some h →
      (handleInvalidToken handlers token).2[j]? = some (h token)) ∧
    (handleInvalidToken handlers token).1 = () := by
  refine ⟨by simp [handleInvalidToken], ?_, rfl⟩
  intro j h hj
  simp [handleInvalidToken, List.getElem?_map, hj]

/-- Closed instance of C3: the failing middle sink does not stop the first
and third sinks from receiving the token. -/
theorem fanout_sink_failure_isolated_witness :
    (handleInvalidToken
      [fun _ => Except.ok (), fun _ => Except.error "pg: error",
       fun _ => Except.ok ()] "tok-C3").2[2]? = some (Except.ok ()) ∧
    (handleInvalidToken
      [fun _ => Except.ok (), fun _ => Except.error "pg: error",
       fun _ => Except.ok ()] "tok-C3").2[0]? = some (Except.ok ()) := by
  have h := fanout_sink_failure_isolated
    [fun _ => Except.ok (), fun _ => Except.error "pg: error",
     fun _ => Except.ok ()] "tok-C3" 1
    (fun _ => Except.error "pg: error") "pg: error" rfl rfl
  exact ⟨h.2.1 2 (fun _ => Except.ok ()) rfl, h.2.1 0 (fun _ => Except.ok ()) rfl⟩

/-- C4: when serialization of the feedback payload fails, the fan-out call
returns exactly that serialization error and performs zero sink
deliveries. -/
theorem feedback_serialize_error_shortcircuits {α : Type}
    (serialize : α → Except String String) (reporters : List String)
    (payload : α) (e : String) (h : serialize payload = Except.error e) :
    sendToFeedbackReporters serialize reporters payload = (Except.error e, []) := by
  simp [sendToFeedbackReporters, h]

/-- Closed instance of C4, with the error message of the repository's own
test for this path. -/
theorem feedback_serialize_error_shortcircuits_witness :
    sendToFeedbackReporters
      (fun (_ : Unit) => Except.error "json: unsupported type: chan int")
      ["kafka"] () = (Except.error "json: unsupported type: chan int", []) :=
  feedback_serialize_error_shortcircuits _ ["kafka"] () _ rfl

/-- C5: an invalid-token handler whose backing store errors on delete is
still invoked with the token, its error is only recorded (logged), all
handlers are processed, and the caller receives the unit result — no
error surfaces. -/
theorem invalid_token_error_swallowed
    (handlers : List (String → Except String Unit)) (token : String)
    (i : Nat) (h : String → Except String Unit) (e : String)
    (hi : handlers[i]? = some h) (he : h token = Except.error e) :
    (handleInvalidToken handlers token).2[i]? = some (Except.error e) ∧
    (handleInvalidToken handlers token).1 = () ∧
    (handleInvalidToken handlers token).2.length = handlers.length := by
  refine ⟨?_, rfl, by simp [handleInvalidToken]⟩
  simp [handleInvalidToken, List.getElem?_map, hi, he]

/-- Closed instance of C5 at a single always-failing handler. -/
theorem invalid_token_error_swallowed_witness :
    (handleInvalidToken [fun _ => Except.error "pg: error"] "tok-C5").2[0]? =
      some (Except.error "pg: error") ∧
    (handleInvalidToken [fun _ => Except.error "pg: error"] "tok-C5").1 = () ∧
    (handleInvalidToken [fun _ => Except.error "pg: error"] "tok-C5").2.length = 1 :=
  invalid_token_error_swallowed [fun _ => Except.error "pg: error"] "tok-C5" 0
    (fun _ => Except.error "pg: error") "pg: error" rfl rfl

/-- C7: the stats loop's condition is true at every iteration (it can never
stop), and every iteration delivers one sample to every configured stats
reporter and ends by sleeping exactly 30 seconds. -/
theorem stats_loop_every_iteration_reports_then_sleeps
    (obs : Nat → Nat × MemStats) (reporters : List String) (n : Nat)
    (r : String) (hr : r ∈ reporters) :
    reportGoStatsLoopCondition n = true ∧
    (∃ s, StatsEvent.report r s ∈ reportGoStatsTrace obs reporters n) ∧
    (reportGoStatsTrace obs reporters n).getLast? = some (StatsEvent.sleep 30) ∧
    (∀ d, StatsEvent.sleep d ∈ reportGoStatsTrace obs reporters n → d = 30) ∧
    (reportGoStatsTrace obs reporters n).countP StatsEvent.isReport =
      reporters.length := by
  refine ⟨rfl, ?_, ?_, ?_, ?_⟩
  · exact ⟨_, List.mem_append_left _ (List.mem_map_of_mem _ hr)⟩
  · exact List.getLast?_concat _
  · intro d hd
    rcases List.mem_append.mp hd with hm | hm
    · rcases List.mem_map.mp hm with ⟨x, -, hx⟩
      cases hx
    · simp at hm
      exact hm
  · simp [reportGoStatsTrace, reportGoStatsBody, List.countP_append,
      List.countP_map, Function.comp, StatsEvent.isReport, List.countP_cons]

/-- Closed instance of C7 at concrete observations and two reporters. -/
theorem stats_loop_every_iteration_witness :
    reportGoStatsLoopCondition 0 = true ∧
    (∃ s, StatsEvent.report "statsd" s ∈
      reportGoStatsTrace sampleObs ["statsd", "dogstatsd"] 0) ∧
    (reportGoStatsTrace sampleObs ["statsd", "dogstatsd"] 0).getLast? =
      some (StatsEvent.sleep 30) ∧
    (∀ d, StatsEvent.sleep d ∈
      reportGoStatsTrace sampleObs ["statsd", "dogstatsd"] 0 → d = 30) ∧
    (reportGoStatsTrace sampleObs ["statsd", "dogstatsd"] 0).countP
      StatsEvent.isReport = 2 :=
  stats_loop_every_iteration_reports_then_sleeps sampleObs
    ["statsd", "dogstatsd"] 0 "statsd" (by simp)

/-- C8: every sample reported by an iteration of reportGoStats carries
exactly the goroutine count, allocated bytes, live heap objects,
next-collection threshold, and the last completed GC pause duration read
from the circular buffer at index (NumGC+255) mod 256. -/
theorem stats_sample_fields (numGoroutine : Nat) (m : MemStats)
    (reporters : List String) (r : String) (s : GoStatsSample)
    (h : StatsEvent.report r s ∈ reportGoStatsBody numGoroutine m reporters) :
    s.goroutines = numGoroutine ∧ s.alloc = m.alloc ∧
    s.heapObjects = m.heapObjects ∧ s.nextGC = m.nextGC ∧
    s.lastPauseNs = m.pauseNs ⟨(m.numGC + 255) % 256, Nat.mod_lt _ (by decide)⟩ := by
  rcases List.mem_append.mp h with hm | hm
  · rcases List.mem_map.mp hm with ⟨x, -, hx⟩
    injection hx with h1 h2
    subst h2
    exact ⟨rfl, rfl, rfl, rfl, rfl⟩
  · simp at hm

/-- Closed instance of C8: the sample of a concrete iteration has the five
fields, with last pause PauseNs[(3+255) mod 256] = PauseNs[2] = 2. -/
theorem stats_sample_fields_witness :
    ({ goroutines := 5, alloc := 100, heapObjects := 7, nextGC := 200,
       lastPauseNs := 2 } : GoStatsSample).goroutines = 5 ∧
    ({ goroutines := 5, alloc := 100, heapObjects := 7, nextGC := 200,
       lastPauseNs := 2 } : GoStatsSample).alloc = sampleMemStats.alloc ∧
    ({ goroutines := 5, alloc := 100, heapObjects := 7, nextGC := 200,
       lastPauseNs := 2 } : GoStatsSample).heapObjects = sampleMemStats.heapObjects ∧
    ({ goroutines := 5, alloc := 100, heapObjects := 7, nextGC := 200,
       lastPauseNs := 2 } : GoStatsSample).nextGC = sampleMemStats.nextGC ∧
    ({ goroutines := 5, alloc := 100, heapObjects := 7, nextGC := 200,
       lastPauseNs := 2 } : GoStatsSample).lastPauseNs =
      sampleMemStats.pauseNs
        ⟨(sampleMemStats.numGC + 255) % 256, Nat.mod_lt _ (by decide)⟩ :=
  stats_sample_fields 5 sampleMemStats ["statsd"] "statsd"
    { goroutines := 5, alloc := 100, heapObjects := 7, nextGC := 200,
      lastPauseNs := 2 } (by decide)

/-- C6: a pusher built with no gracefulShutdownTimeout key in its config
file gets the default drain timeout of 10 seconds, and every completed run
of Start enters the drain wait with exactly that configured bound. -/
theorem graceful_shutdown_timeout_default (env : ConfigureEnv)
    (cf cp app : String) (prod : Bool) (srs : Option (List String))
    (queueOrNil : List Nat) (a : APNSPusher)
    (hok : NewAPNSPusher env cf cp app prod srs queueOrNil = Except.ok a)
    (hunset : lookupKV env.fileValues "gracefulShutdownTimeout" = none) :
    a.gracefulShutdownTimeout = 10 ∧
    ∀ sigs c tr, a.Start sigs c = (tr, true) →
      Event.gracefulShutdown 10 ∈ tr ∧
      ∀ t, Event.gracefulShutdown t ∈ tr → t = 10 := by
  have h10 : a.gracefulShutdownTimeout = 10 := by
    rcases h1 : configureStatsReporters env srs with e1 | v1 <;>
    rcases h2 : env.feedbackFromConfig with e2 | v2 <;>
    rcases h3 : env.invalidTokenFromConfig with e3 | v3 <;>
    rcases h4 : env.kafkaConsumer with e4 | v4 <;>
    rcases h5 : env.handlerResult with _ | e5 <;>
      simp [NewAPNSPusher, configure, newAPNSMessageHandler, h1, h2, h3, h4,
        h5, bind, Except.bind, pure, Except.pure] at hok
    rw [← hok]
    simp [ViperConfig.getInt, loadConfigurationDefaults,
      ViperConfig.setDefault, lookupKV, hunset]
  refine ⟨h10, ?_⟩
  intro sigs c tr htr
  cases sigs with
  | nil => rw [start_nil] at htr; simp at htr
  | cons s rest =>
    rw [start_cons, h10] at htr
    injection htr with htr1 htr2
    subst htr1
    refine ⟨by simp, ?_⟩
    intro t ht
    simp at ht
    exact ht

/-- Closed instance of C6 at a concrete all-successful environment. -/
theorem graceful_shutdown_timeout_default_witness :
    samplePusher.gracefulShutdownTimeout = 10 ∧
    ∀ sigs c tr, samplePusher.Start sigs c = (tr, true) →
      Event.gracefulShutdown 10 ∈ tr ∧
      ∀ t, Event.gracefulShutdown t ∈ tr → t = 10 :=
  graceful_shutdown_timeout_default sampleEnv "config.yaml" "cert.pem" "game"
    false (some ["statsd"]) [] samplePusher rfl rfl

/-- C10: NewAPNSPusher is atomic in its error handling — it yields a pusher
exactly when every configuration step succeeded, on failure it returns the
failing step's error (and no pusher), and on success the first element of
the variadic queue argument (if any) is the push queue wired into the
message handler. -/
theorem newAPNSPusher_atomic (env : ConfigureEnv) (cf cp app : String)
    (prod : Bool) (srs : Option (List String)) (queueOrNil : List Nat) :
    (∀ a, NewAPNSPusher env cf cp app prod srs queueOrNil = Except.ok a →
        a.messageHandler.pushQueue = queueOrNil.head?) ∧
    ((∃ a, NewAPNSPusher env cf cp app prod srs queueOrNil = Except.ok a) ↔
      (exceptIsOk (configureStatsReporters env srs) = true ∧
       exceptIsOk env.feedbackFromConfig = true ∧
       exceptIsOk env.invalidTokenFromConfig = true ∧
       exceptIsOk env.kafkaConsumer = true ∧
       env.handlerResult = none)) ∧
    (∀ e, NewAPNSPusher env cf cp app prod srs queueOrNil = Except.error e →
      configureStatsReporters env srs = Except.error e ∨
      env.feedbackFromConfig = Except.error e ∨
      env.invalidTokenFromConfig = Except.error e ∨
      env.kafkaConsumer = Except.error e ∨
      env.handlerResult = some e) := by
  rcases h1 : configureStatsReporters env srs with e1 | v1 <;>
  rcases h2 : env.feedbackFromConfig with e2 | v2 <;>
  rcases h3 : env.invalidTokenFromConfig with e3 | v3 <;>
  rcases h4 : env.kafkaConsumer with e4 | v4 <;>
  rcases h5 : env.handlerResult with _ | e5 <;>
    simp [NewAPNSPusher, configure, newAPNSMessageHandler, h1, h2, h3, h4,
      h5, bind, Except.bind, pure, Except.pure, exceptIsOk]

/-- Closed instance of C10: with every step succeeding and queue argument
[7], the handler is wired with push queue 7. -/
theorem newAPNSPusher_atomic_witness :
    ({ appName := "game", certificatePath := "cert.pem",
       configFile := "config.yaml", isProduction := false,
       gracefulShutdownTimeout := 10, statsReporters := ["statsd"],
       feedbackReporters := ["kafka"], invalidTokenHandlers := ["tokenPG"],
       queue := 1, messageHandler := { pushQueue := some 7 } } :
      APNSPusher).messageHandler.pushQueue = ([7] : List Nat).head? :=
  (newAPNSPusher_atomic sampleEnv "config.yaml" "cert.pem" "game" false
    (some ["statsd"]) [7]).1 _ rfl
